import Mathlib

/-!
# Verification of the browser-history artifact decoding engine

This file gives a shallow embedding of the core of `src/main.py` — the epoch
converters (`chrome_to_utc`, `firefox_to_utc`, `safari_to_utc`), the schema
detector (`detect_kind`), the extractor (`query_rows`), and the shell pieces
the claims refer to (the upload limit clamp and the CSV export limit) — and
proves or refutes the specification's claims about them.

The embedding conventions:

* Python `datetime` arithmetic is modelled exactly, at microsecond resolution,
  on the proleptic Gregorian calendar.  An *instant* is a natural number of
  microseconds since 0001-01-01T00:00:00 UTC (the minimum of Python's
  `datetime` range); year/month/day decomposition follows CPython's
  `_ord2ymd` / `_ymd2ord` (divmod chain by 146097/36524/1461/365 plus the
  month table).
* Values flowing into the converters are modelled by `PyVal`: an integer, a
  finite float (as a rational), or a non-numeric value on which `int()` /
  `float()` raises (the bare `except:` turns any such failure, as well as any
  out-of-range date, into the empty string).
* A SQLite database is modelled as its list of table names (what
  `sqlite_master` reports) together with the optional contents of each table
  the queries touch; a missing table makes the corresponding query fail the
  way `sqlite3` raises `OperationalError`.
-/

namespace BHP

/-! ## Proleptic Gregorian calendar (CPython `datetime` internals) -/

/-- Gregorian leap-year test (CPython `_is_leap`). -/
def isLeap (y : Nat) : Bool := y % 4 == 0 && (y % 100 != 0 || y % 400 == 0)

/-- Number of days in the years `1, …, y-1`; the 0-based ordinal of
January 1 of year `y` (CPython `_days_before_year`). -/
def daysBeforeYear (y : Nat) : Nat :=
  (y - 1) * 365 + (y - 1) / 4 - (y - 1) / 100 + (y - 1) / 400

/-- Number of days in year `y` strictly before month `m`
(CPython `_days_before_month`). -/
def daysBeforeMonth (m : Nat) (leap : Bool) : Nat :=
  (match m with
   | 1 => 0 | 2 => 31 | 3 => 59 | 4 => 90 | 5 => 120 | 6 => 151
   | 7 => 181 | 8 => 212 | 9 => 243 | 10 => 273 | 11 => 304 | _ => 334)
  + (if 2 < m ∧ leap then 1 else 0)

/-- The year containing the 0-based day number `n` (days since 0001-01-01)
together with the 0-based day-of-year, via CPython `_ord2ymd`'s divmod chain:
`n1 = 4` or `n100 = 4` marks the final (366th) day of a leap year. -/
def yearDoyOfDays (n : Nat) : Nat × Nat :=
  let n400 := n / 146097
  let r1 := n % 146097
  let n100 := r1 / 36524
  let r2 := r1 % 36524
  let n4 := r2 / 1461
  let r3 := r2 % 1461
  let n1 := r3 / 365
  let r4 := r3 % 365
  if n1 = 4 ∨ n100 = 4 then
    (400 * n400 + 100 * n100 + 4 * n4 + n1, 365)
  else
    (400 * n400 + 100 * n100 + 4 * n4 + n1 + 1, r4)

/-- Month and (1-based) day from a 0-based day-of-year, by the cumulative
month table (the month search of CPython `_ord2ymd`). -/
def mdOfDoy (doy : Nat) (leap : Bool) : Nat × Nat :=
  let f := if leap then 1 else 0
  if doy < 31 then (1, doy + 1)
  else if doy < 59 + f then (2, doy - 31 + 1)
  else if doy < 90 + f then (3, doy - (59 + f) + 1)
  else if doy < 120 + f then (4, doy - (90 + f) + 1)
  else if doy < 151 + f then (5, doy - (120 + f) + 1)
  else if doy < 181 + f then (6, doy - (151 + f) + 1)
  else if doy < 212 + f then (7, doy - (181 + f) + 1)
  else if doy < 243 + f then (8, doy - (212 + f) + 1)
  else if doy < 273 + f then (9, doy - (243 + f) + 1)
  else if doy < 304 + f then (10, doy - (273 + f) + 1)
  else if doy < 334 + f then (11, doy - (304 + f) + 1)
  else (12, doy - (334 + f) + 1)

/-- CPython `_ord2ymd`: 0-based day count since 0001-01-01 to `(y, m, d)`. -/
def ord2ymd (n : Nat) : Nat × Nat × Nat :=
  let p := yearDoyOfDays n
  let md := mdOfDoy p.2 (isLeap p.1)
  (p.1, md.1, md.2)

/-- CPython `_ymd2ord` (shifted to 0-based): days since 0001-01-01. -/
def ymd2ord (y m d : Nat) : Nat :=
  daysBeforeYear y + daysBeforeMonth m (isLeap y) + (d - 1)

lemma isLeap_iff (y : Nat) :
    isLeap y = true ↔ (y % 4 = 0 ∧ (y % 100 ≠ 0 ∨ y % 400 = 0)) := by
  simp [isLeap]

lemma year_chain_norm (n400 n100 n4 n1 r4 : Nat)
    (hb1 : 36524 * n100 + 1461 * n4 + 365 * n1 + r4 < 146097)
    (hb2 : 1461 * n4 + 365 * n1 + r4 < 36524)
    (hb3 : 365 * n1 + r4 < 1461)
    (hb4 : r4 < 365)
    (hnot : ¬(n1 = 4 ∨ n100 = 4)) :
    daysBeforeYear (400 * n400 + 100 * n100 + 4 * n4 + n1 + 1) =
      146097 * n400 + 36524 * n100 + 1461 * n4 + 365 * n1 := by
  unfold daysBeforeYear
  have e4 : (400 * n400 + 100 * n100 + 4 * n4 + n1 + 1 - 1) / 4
      = 100 * n400 + 25 * n100 + n4 := by omega
  have e100 : (400 * n400 + 100 * n100 + 4 * n4 + n1 + 1 - 1) / 100
      = 4 * n400 + n100 := by omega
  have e400 : (400 * n400 + 100 * n100 + 4 * n4 + n1 + 1 - 1) / 400 = n400 := by omega
  omega

lemma year_chain_exc (n400 n100 n4 n1 r4 : Nat)
    (hb1 : 36524 * n100 + 1461 * n4 + 365 * n1 + r4 < 146097)
    (hb2 : 1461 * n4 + 365 * n1 + r4 < 36524)
    (hb3 : 365 * n1 + r4 < 1461)
    (hb4 : r4 < 365)
    (hexc : n1 = 4 ∨ n100 = 4) :
    r4 = 0 ∧
    daysBeforeYear (400 * n400 + 100 * n100 + 4 * n4 + n1) + 365 =
      146097 * n400 + 36524 * n100 + 1461 * n4 + 365 * n1 ∧
    isLeap (400 * n400 + 100 * n100 + 4 * n4 + n1) = true := by
  rw [isLeap_iff]
  unfold daysBeforeYear
  rcases hexc with h | h
  · subst h
    have e4 : (400 * n400 + 100 * n100 + 4 * n4 + 4 - 1) / 4
        = 100 * n400 + 25 * n100 + n4 := by omega
    have e100 : (400 * n400 + 100 * n100 + 4 * n4 + 4 - 1) / 100 = 4 * n400 + n100 := by
      omega
    have e400 : (400 * n400 + 100 * n100 + 4 * n4 + 4 - 1) / 400 = n400 := by omega
    omega
  · subst h
    have hz : n4 = 0 ∧ n1 = 0 ∧ r4 = 0 := by omega
    obtain ⟨h4, h1, hr⟩ := hz
    subst h4; subst h1; subst hr
    have e4 : (400 * n400 + 100 * 4 + 4 * 0 + 0 - 1) / 4 = 100 * n400 + 99 := by omega
    have e100 : (400 * n400 + 100 * 4 + 4 * 0 + 0 - 1) / 100 = 4 * n400 + 3 := by omega
    have e400 : (400 * n400 + 100 * 4 + 4 * 0 + 0 - 1) / 400 = n400 := by omega
    omega

/-- Year/day-of-year decomposition is exact, the year is positive, and the
366th day only occurs in leap years. -/
lemma yearDoyOfDays_spec (n : Nat) :
    daysBeforeYear (yearDoyOfDays n).1 + (yearDoyOfDays n).2 = n ∧
    1 ≤ (yearDoyOfDays n).1 ∧
    (yearDoyOfDays n).2 ≤ 365 ∧
    ((yearDoyOfDays n).2 = 365 → isLeap (yearDoyOfDays n).1 = true) := by
  have hn : n = 146097 * (n / 146097) + (36524 * (n % 146097 / 36524)
      + 1461 * (n % 146097 % 36524 / 1461)
      + 365 * (n % 146097 % 36524 % 1461 / 365)
      + n % 146097 % 36524 % 1461 % 365) := by omega
  have hb1 : 36524 * (n % 146097 / 36524) + 1461 * (n % 146097 % 36524 / 1461)
      + 365 * (n % 146097 % 36524 % 1461 / 365)
      + n % 146097 % 36524 % 1461 % 365 < 146097 := by omega
  have hb2 : 1461 * (n % 146097 % 36524 / 1461)
      + 365 * (n % 146097 % 36524 % 1461 / 365)
      + n % 146097 % 36524 % 1461 % 365 < 36524 := by omega
  have hb3 : 365 * (n % 146097 % 36524 % 1461 / 365)
      + n % 146097 % 36524 % 1461 % 365 < 1461 := by omega
  have hb4 : n % 146097 % 36524 % 1461 % 365 < 365 := by omega
  unfold yearDoyOfDays
  by_cases hexc : n % 146097 % 36524 % 1461 / 365 = 4 ∨ n % 146097 / 36524 = 4
  · obtain ⟨hr4, hdby, hleap⟩ := year_chain_exc (n / 146097) (n % 146097 / 36524)
      (n % 146097 % 36524 / 1461) (n % 146097 % 36524 % 1461 / 365)
      (n % 146097 % 36524 % 1461 % 365) hb1 hb2 hb3 hb4 hexc
    simp only [if_pos hexc]
    refine ⟨by omega, by omega, le_refl _, fun _ => hleap⟩
  · have hdby := year_chain_norm (n / 146097) (n % 146097 / 36524)
      (n % 146097 % 36524 / 1461) (n % 146097 % 36524 % 1461 / 365)
      (n % 146097 % 36524 % 1461 % 365) hb1 hb2 hb3 hb4 hexc
    simp only [if_neg hexc]
    exact ⟨by omega, by omega, by omega, by omega⟩

set_option maxRecDepth 4000 in
/-- The month table inverts the month/day extraction (checked for every
day-of-year below 366). -/
lemma mdOfDoy_spec : ∀ (leap : Bool), ∀ doy < 366,
    doy < 365 + (if leap then 1 else 0) →
    (daysBeforeMonth (mdOfDoy doy leap).1 leap + ((mdOfDoy doy leap).2 - 1) = doy ∧
    1 ≤ (mdOfDoy doy leap).1 ∧ (mdOfDoy doy leap).1 ≤ 12 ∧
    1 ≤ (mdOfDoy doy leap).2 ∧ (mdOfDoy doy leap).2 ≤ 31) := by decide

lemma yearDoy_lt (n : Nat) :
    (yearDoyOfDays n).2 < 365 + (if isLeap (yearDoyOfDays n).1 then 1 else 0) := by
  obtain ⟨hsum, hy1, hdle, hleap⟩ := yearDoyOfDays_spec n
  by_cases h365 : (yearDoyOfDays n).2 = 365
  · rw [hleap h365]
    simp
    omega
  · cases hl : isLeap (yearDoyOfDays n).1 <;> simp [hl] <;> omega

/-- Converting a day count to a calendar date and back is the identity. -/
theorem ymd2ord_ord2ymd (n : Nat) :
    ymd2ord (ord2ymd n).1 (ord2ymd n).2.1 (ord2ymd n).2.2 = n := by
  obtain ⟨hsum, hy1, hdle, hleap⟩ := yearDoyOfDays_spec n
  have hdoy := yearDoy_lt n
  obtain ⟨hmd, hm1, hm12, hd1, hd31⟩ :=
    mdOfDoy_spec (isLeap (yearDoyOfDays n).1) (yearDoyOfDays n).2 (by omega) hdoy
  unfold ord2ymd ymd2ord
  simp only []
  omega

/-- Bounds of the calendar fields for day counts within Python's
`datetime` range (years 1–9999). -/
theorem ord2ymd_bounds (n : Nat) (h : n ≤ 3652058) :
    1 ≤ (ord2ymd n).1 ∧ (ord2ymd n).1 ≤ 9999 ∧
    1 ≤ (ord2ymd n).2.1 ∧ (ord2ymd n).2.1 ≤ 12 ∧
    1 ≤ (ord2ymd n).2.2 ∧ (ord2ymd n).2.2 ≤ 31 := by
  obtain ⟨hsum, hy1, hdle, hleap⟩ := yearDoyOfDays_spec n
  have hdoy := yearDoy_lt n
  obtain ⟨hmd, hm1, hm12, hd1, hd31⟩ :=
    mdOfDoy_spec (isLeap (yearDoyOfDays n).1) (yearDoyOfDays n).2 (by omega) hdoy
  have hy9999 : (yearDoyOfDays n).1 ≤ 9999 := by
    have hdby : daysBeforeYear (yearDoyOfDays n).1 ≤ n := by omega
    simp only [daysBeforeYear] at hdby
    omega
  unfold ord2ymd
  simp only []
  exact ⟨hy1, hy9999, hm1, hm12, hd1, hd31⟩

/-! ## Rendering (Python `datetime.isoformat`) and ISO-8601 parsing

An instant is a count of microseconds since 0001-01-01T00:00:00 UTC
(`datetime.min`); Python's `datetime` range is exactly the instants
`0 ≤ t ≤ pyMaxMicros` (year 9999 inclusive). -/

/-- Last representable Python `datetime` instant, in microseconds since
0001-01-01: 9999-12-31T23:59:59.999999. -/
def pyMaxMicros : Nat := 3652059 * 86400000000 - 1

/-- ASCII digit for `n < 10`. -/
def digitChar (n : Nat) : Char := Char.ofNat (48 + n)

/-- Two-digit zero-padded decimal. -/
def pad2 (n : Nat) : List Char := [digitChar (n / 10), digitChar (n % 10)]

/-- Four-digit zero-padded decimal. -/
def pad4 (n : Nat) : List Char := pad2 (n / 100) ++ pad2 (n % 100)

/-- Six-digit zero-padded decimal. -/
def pad6 (n : Nat) : List Char := pad2 (n / 10000) ++ pad2 (n / 100 % 100) ++ pad2 (n % 100)

/-- Python `datetime.isoformat()` on an aware UTC datetime:
`YYYY-MM-DDTHH:MM:SS[.ffffff]+00:00`, the fractional part present exactly
when the microsecond field is nonzero. -/
def isoformatChars (t : Nat) : List Char :=
  let rem := t % 86400000000
  let ymd := ord2ymd (t / 86400000000)
  pad4 ymd.1 ++ '-' :: (pad2 ymd.2.1 ++ '-' :: (pad2 ymd.2.2 ++ 'T' ::
    (pad2 (rem / 3600000000) ++ ':' :: (pad2 (rem / 60000000 % 60) ++ ':' ::
    (pad2 (rem / 1000000 % 60)
      ++ (if rem % 1000000 = 0 then [] else '.' :: pad6 (rem % 1000000))
      ++ ['+', '0', '0', ':', '0', '0'])))))

def isoformat (t : Nat) : String := String.mk (isoformatChars t)

/-- Value of an ASCII digit. -/
def digitVal (c : Char) : Option Nat :=
  if 48 ≤ c.toNat ∧ c.toNat ≤ 57 then some (c.toNat - 48) else none

/-- Read two digits. -/
def read2 (l : List Char) : Option (Nat × List Char) :=
  match l with
  | c1 :: c2 :: rest =>
    match digitVal c1, digitVal c2 with
    | some a, some b => some (a * 10 + b, rest)
    | _, _ => none
  | _ => none

/-- Read four digits. -/
def read4 (l : List Char) : Option (Nat × List Char) :=
  (read2 l).bind fun p => (read2 p.2).map fun q => (p.1 * 100 + q.1, q.2)

/-- Read six digits. -/
def read6 (l : List Char) : Option (Nat × List Char) :=
  (read2 l).bind fun p => (read2 p.2).bind fun q =>
    (read2 q.2).map fun r => (p.1 * 10000 + q.1 * 100 + r.1, r.2)

/-- Consume one expected character. -/
def expect (c : Char) (l : List Char) : Option (List Char) :=
  match l with
  | c' :: rest => if c' = c then some rest else none
  | _ => none

/-- Optional `.ffffff` fractional-second group (microseconds). -/
def parseFrac (l : List Char) : Option (Nat × List Char) :=
  match l with
  | '.' :: rest => read6 rest
  | _ => some (0, l)

/-- Parse an ISO-8601 UTC timestamp of the shape produced by
`datetime.isoformat()` back to microseconds since 0001-01-01. -/
def parseIso (str : String) : Option Nat :=
  (read4 str.data).bind fun y =>
  (expect '-' y.2).bind fun l2 =>
  (read2 l2).bind fun mo =>
  (expect '-' mo.2).bind fun l4 =>
  (read2 l4).bind fun da =>
  (expect 'T' da.2).bind fun l6 =>
  (read2 l6).bind fun h =>
  (expect ':' h.2).bind fun l8 =>
  (read2 l8).bind fun mi =>
  (expect ':' mi.2).bind fun l10 =>
  (read2 l10).bind fun s =>
  (parseFrac s.2).bind fun us =>
  if us.2 = ['+', '0', '0', ':', '0', '0'] then
    some (ymd2ord y.1 mo.1 da.1 * 86400000000 + h.1 * 3600000000
      + mi.1 * 60000000 + s.1 * 1000000 + us.1)
  else none

lemma digitVal_digitChar (k : Nat) (h : k < 10) : digitVal (digitChar k) = some k := by
  interval_cases k <;> decide

lemma read2_pad2 (n : Nat) (h : n < 100) (l : List Char) :
    read2 (pad2 n ++ l) = some (n, l) := by
  have h1 : n / 10 < 10 := by omega
  have h2 : n % 10 < 10 := by omega
  have hn : n / 10 * 10 + n % 10 = n := by omega
  simp [pad2, read2, digitVal_digitChar _ h1, digitVal_digitChar _ h2, hn]

lemma read4_pad4 (n : Nat) (h : n < 10000) (l : List Char) :
    read4 (pad4 n ++ l) = some (n, l) := by
  have h1 : n / 100 < 100 := by omega
  have h2 : n % 100 < 100 := by omega
  have hn : n / 100 * 100 + n % 100 = n := by omega
  simp [pad4, read4, read2_pad2 _ h1, read2_pad2 _ h2, hn]

lemma read6_pad6 (n : Nat) (h : n < 1000000) (l : List Char) :
    read6 (pad6 n ++ l) = some (n, l) := by
  have h1 : n / 10000 < 100 := by omega
  have h2 : n / 100 % 100 < 100 := by omega
  have h3 : n % 100 < 100 := by omega
  have hn : n / 10000 * 10000 + n / 100 % 100 * 100 + n % 100 = n := by omega
  simp [pad6, read6, read2_pad2 _ h1, read2_pad2 _ h2, read2_pad2 _ h3, hn]

lemma expect_cons (c : Char) (l : List Char) : expect c (c :: l) = some l := by
  simp [expect]

lemma parseFrac_nofrac :
    parseFrac ['+', '0', '0', ':', '0', '0'] = some (0, ['+', '0', '0', ':', '0', '0']) := rfl

lemma parseFrac_dot (l : List Char) : parseFrac ('.' :: l) = read6 l := rfl

/-- Rendering a valid instant and parsing it back is the identity: the
ISO-8601 string denotes exactly the instant it was produced from. -/
theorem parseIso_isoformat (t : Nat) (h : t ≤ pyMaxMicros) :
    parseIso (isoformat t) = some t := by
  have hdays : t / 86400000000 ≤ 3652058 := by
    unfold pyMaxMicros at h
    omega
  obtain ⟨hy1, hy2, hm1, hm2, hd1, hd2⟩ := ord2ymd_bounds (t / 86400000000) hdays
  have hymd := ymd2ord_ord2ymd (t / 86400000000)
  have hrem : t % 86400000000 < 86400000000 := by omega
  unfold parseIso isoformat isoformatChars
  simp only []
  have hy4 : (ord2ymd (t / 86400000000)).1 < 10000 := by omega
  have hmo : (ord2ymd (t / 86400000000)).2.1 < 100 := by omega
  have hda : (ord2ymd (t / 86400000000)).2.2 < 100 := by omega
  have hh : t % 86400000000 / 3600000000 < 100 := by omega
  have hmi : t % 86400000000 / 60000000 % 60 < 100 := by omega
  have hs : t % 86400000000 / 1000000 % 60 < 100 := by omega
  by_cases hus : t % 86400000000 % 1000000 = 0
  · rw [if_pos hus]
    simp only [List.cons_append, List.nil_append, List.append_assoc]
    rw [read4_pad4 _ hy4, Option.some_bind]
    rw [expect_cons, Option.some_bind]
    rw [read2_pad2 _ hmo, Option.some_bind]
    rw [expect_cons, Option.some_bind]
    rw [read2_pad2 _ hda, Option.some_bind]
    rw [expect_cons, Option.some_bind]
    rw [read2_pad2 _ hh, Option.some_bind]
    rw [expect_cons, Option.some_bind]
    rw [read2_pad2 _ hmi, Option.some_bind]
    rw [expect_cons, Option.some_bind]
    rw [read2_pad2 _ hs, Option.some_bind]
    rw [parseFrac_nofrac, Option.some_bind]
    simp only []
    rw [if_pos trivial]
    rw [hymd]
    congr 1
    omega
  · rw [if_neg hus]
    simp only [List.cons_append, List.nil_append, List.append_assoc]
    rw [read4_pad4 _ hy4, Option.some_bind]
    rw [expect_cons, Option.some_bind]
    rw [read2_pad2 _ hmo, Option.some_bind]
    rw [expect_cons, Option.some_bind]
    rw [read2_pad2 _ hda, Option.some_bind]
    rw [expect_cons, Option.some_bind]
    rw [read2_pad2 _ hh, Option.some_bind]
    rw [expect_cons, Option.some_bind]
    rw [read2_pad2 _ hmi, Option.some_bind]
    rw [expect_cons, Option.some_bind]
    rw [read2_pad2 _ hs, Option.some_bind]
    have hus6 : t % 86400000000 % 1000000 < 1000000 := by omega
    rw [parseFrac_dot, read6_pad6 _ hus6, Option.some_bind]
    simp only []
    rw [if_pos trivial]
    rw [hymd]
    congr 1
    omega

/-! ## The three epoch converters (`src/main.py` lines 20–40) -/

/-- A Python value reaching a converter: an `int`, a finite `float`
(modelled as the exact rational it denotes), or any value on which
`int()` / `float()` raises (`None`, a non-numeric string, …).  Numeric
strings behave like the number they denote, so they are covered by the
first two constructors. -/
inductive PyVal
  | int (i : Int)
  | float (q : ℚ)
  | nonNumeric
deriving DecidableEq

/-- Python `int(x)`: identity on ints, truncation toward zero on floats,
failure on non-numeric values. -/
def pyToInt : PyVal → Option Int
  | .int i => some i
  | .float q => some (if q < 0 then ⌈q⌉ else ⌊q⌋)
  | .nonNumeric => none

/-- Python `float(x)`: failure exactly on non-numeric values. -/
def pyToFloat : PyVal → Option ℚ
  | .int i => some i
  | .float q => some q
  | .nonNumeric => none

/-- `EPOCH_CHROMIUM = datetime(1601, 1, 1)`, in microseconds since 0001-01-01. -/
def chromeEpochUs : Nat := 86400000000 * ymd2ord 1601 1 1

/-- `EPOCH_UNIX = datetime(1970, 1, 1)`, in microseconds since 0001-01-01. -/
def unixEpochUs : Nat := 86400000000 * ymd2ord 1970 1 1

/-- `EPOCH_COCOA = datetime(2001, 1, 1)`, in microseconds since 0001-01-01. -/
def cocoaEpochUs : Nat := 86400000000 * ymd2ord 2001 1 1

/-- `(EPOCH + timedelta(microseconds=i)).isoformat()` wrapped in the bare
`except:` of the source: the sum leaves Python's `datetime` range exactly
when `datetime.__add__` raises `OverflowError`, which the source converts
to the empty-string marker. -/
def epochShiftIso (epochUs : Nat) (i : Int) : String :=
  if 0 ≤ i + (epochUs : Int) ∧ i + (epochUs : Int) ≤ (pyMaxMicros : Int) then
    isoformat (i + (epochUs : Int)).toNat
  else ""

/-- `chrome_to_utc` (src/main.py lines 24–26). -/
def chrome_to_utc (x : PyVal) : String :=
  match pyToInt x with
  | some i => epochShiftIso chromeEpochUs i
  | none => ""

/-- `firefox_to_utc` (src/main.py lines 28–30). -/
def firefox_to_utc (x : PyVal) : String :=
  match pyToInt x with
  | some i => epochShiftIso unixEpochUs i
  | none => ""

/-- Round a rational to the nearest integer, ties to even
(Python's `round`, used by `timedelta(seconds=⟨float⟩)`). -/
def roundHalfEven (q : ℚ) : Int :=
  if q - ⌊q⌋ < 1 / 2 then ⌊q⌋
  else if 1 / 2 < q - ⌊q⌋ then ⌊q⌋ + 1
  else if ⌊q⌋ % 2 = 0 then ⌊q⌋ else ⌊q⌋ + 1

/-- The magnitude-banded unit inference of `safari_to_utc`
(src/main.py lines 35–38). -/
def safariSeconds (v : ℚ) : ℚ :=
  if v > 1e14 then v / 1e9
  else if v > 1e11 then v / 1e6
  else if v > 1e10 then v / 1e3
  else v

/-- `safari_to_utc` (src/main.py lines 32–40): `float(val)`, the magnitude
bands, then `EPOCH_COCOA + timedelta(seconds=seconds)` (microsecond
resolution, ties to even) rendered with `isoformat`; any failure → `""`. -/
def safari_to_utc (x : PyVal) : String :=
  match pyToFloat x with
  | some v => epochShiftIso cocoaEpochUs (roundHalfEven (safariSeconds v * 1000000))
  | none => ""

/-! ## SQLite `datetime(·, 'unixepoch')` (used in the downloads query) -/

/-- Seconds from 0001-01-01T00:00:00 to the Unix epoch. -/
def unixEpochSec : Nat := 86400 * ymd2ord 1970 1 1

/-- `YYYY-MM-DD HH:MM:SS` for `t` seconds since 0001-01-01 (SQLite's
output format: space separator, no zone suffix, no fractional part). -/
def sqliteFormatChars (t : Nat) : List Char :=
  let ymd := ord2ymd (t / 86400)
  pad4 ymd.1 ++ '-' :: (pad2 ymd.2.1 ++ '-' :: (pad2 ymd.2.2 ++ ' ' ::
    (pad2 (t % 86400 / 3600) ++ ':' :: (pad2 (t % 86400 / 60 % 60) ++ ':' ::
      pad2 (t % 86400 % 60)))))

/-- Modelled from SQLite's documented `datetime(s, 'unixepoch')` semantics:
renders the UTC instant `s` seconds after 1970-01-01 as
`YYYY-MM-DD HH:MM:SS`, and yields SQL NULL (`none`) when the instant is
out of range (beyond year 9999).  SQLite also renders years 0000 and the
pre-year-1 julian range; this model restricts to years ≥ 1, which covers
every nonnegative Chromium timestamp, and returns `none` outside. -/
def sqlite_datetime (s : Int) : Option String :=
  if 0 ≤ s + (unixEpochSec : Int) ∧ s + (unixEpochSec : Int) ≤ 3652059 * 86400 - 1 then
    some (String.mk (sqliteFormatChars (s + (unixEpochSec : Int)).toNat))
  else none

/-- The in-query conversion of the downloads query (src/main.py lines
103–106): `datetime((raw / 1000000) - 11644473600, 'unixepoch')`, with
SQLite's truncating integer division. -/
def sqlChromeTimeUtc (raw : Int) : Option String :=
  sqlite_datetime (raw.tdiv 1000000 - 11644473600)

/-! ## Database model, schema detection, and the extractor -/

structure UrlRow where
  id : Int
  url : String
  title : Option String
  last_visit_time : Int
deriving DecidableEq

structure VisitRow where
  id : Int
  url : Int
  visit_time : Int
deriving DecidableEq

structure MozPlaceRow where
  id : Int
  url : String
  title : Option String
deriving DecidableEq

structure MozVisitRow where
  id : Int
  place_id : Int
  visit_date : Int
deriving DecidableEq

structure HistoryItemRow where
  id : Int
  url : String
  title : Option String
deriving DecidableEq

structure HistoryVisitRow where
  id : Int
  history_item : Int
  visit_time : ℚ
deriving DecidableEq

structure DownloadRow where
  id : Int
  guid : String
  current_path : String
  target_path : String
  start_time : Int
  received_bytes : Int
  total_bytes : Int
  hash : String
  end_time : Int
  last_access_time : Int
  referrer : String
  tab_url : String
  tab_referrer_url : String
  mime_type : String
  original_mime_type : String
deriving DecidableEq

/-- A SQLite database: the table names `sqlite_master` lists, and the
contents of the tables the queries touch (`none` = table absent).  The
`id` columns are `INTEGER PRIMARY KEY` in every browser schema and hence
non-null, which the row types encode by making them plain integers. -/
structure Database where
  tableNames : List String
  urls : Option (List UrlRow) := none
  visits : Option (List VisitRow) := none
  moz_places : Option (List MozPlaceRow) := none
  moz_historyvisits : Option (List MozVisitRow) := none
  history_items : Option (List HistoryItemRow) := none
  history_visits : Option (List HistoryVisitRow) := none
  downloads : Option (List DownloadRow) := none
deriving DecidableEq

/-- `detect_kind` (src/main.py lines 42–52): lower-case the table names
into a set and classify, first match wins. -/
def detect_kind (db : Database) : String :=
  let names := db.tableNames.map (fun s => String.mk (s.data.map Char.toLower))
  if "urls" ∈ names ∧ "visits" ∈ names then "chromium"
  else if "moz_places" ∈ names ∧ "moz_historyvisits" ∈ names then "firefox"
  else if "history_items" ∈ names ∧ "history_visits" ∈ names then "safari"
  else if "downloads" ∈ names then "chromium"
  else "unknown"

/-- A normalized visited-URL record as yielded by the urls branch. -/
structure VisitRec where
  id : Int
  url : String
  title : String
  utc : String
deriving DecidableEq

/-- A normalized download record as yielded by the downloads branch; the
three `_utc` fields carry the SQL `datetime` result, which is NULL
(`none`) when the raw value is out of SQLite's datetime range. -/
structure DownloadRec where
  id : Int
  guid : String
  current_path : String
  target_path : String
  start_time_utc : Option String
  received_bytes : Int
  total_bytes : Int
  hash : String
  end_time_utc : Option String
  last_access_time_utc : Option String
  referrer : String
  tab_url : String
  tab_referrer_url : String
  mime_type : String
  original_mime_type : String
deriving DecidableEq

inductive Rec
  | visit (v : VisitRec)
  | download (d : DownloadRec)
deriving DecidableEq

/-- SQL inner join. -/
def sqlJoin {α β : Type} (xs : List α) (ys : List β) (cond : α → β → Bool) :
    List (α × β) :=
  xs.flatMap fun a => (ys.filter (cond a)).map fun b => (a, b)

/-- Insert into a descending-sorted list, keeping it descending. -/
def insertDesc {α β : Type} [LinearOrder β] (key : α → β) (a : α) :
    List α → List α
  | [] => [a]
  | b :: bs => if key b ≤ key a then a :: b :: bs else b :: insertDesc key a bs

/-- `ORDER BY key DESC` (SQL leaves the order of equal keys unspecified;
insertion sort models one valid execution). -/
def sortByDesc {α β : Type} [LinearOrder β] (key : α → β) : List α → List α
  | [] => []
  | a :: rest => insertDesc key a (sortByDesc key rest)

lemma length_insertDesc {α β : Type} [LinearOrder β] (key : α → β) (a : α)
    (l : List α) : (insertDesc key a l).length = l.length + 1 := by
  induction l with
  | nil => rfl
  | cons b bs ih =>
    unfold insertDesc
    split
    · rfl
    · simp only [List.length_cons, ih]

lemma length_sortByDesc {α β : Type} [LinearOrder β] (key : α → β) (l : List α) :
    (sortByDesc key l).length = l.length := by
  induction l with
  | nil => rfl
  | cons a rest ih =>
    unfold sortByDesc
    rw [length_insertDesc, ih, List.length_cons]

lemma mem_insertDesc {α β : Type} [LinearOrder β] (key : α → β) (a x : α)
    (l : List α) : x ∈ insertDesc key a l ↔ x = a ∨ x ∈ l := by
  induction l with
  | nil => simp [insertDesc]
  | cons b bs ih =>
    unfold insertDesc
    split
    · simp
    · simp only [List.mem_cons, ih]
      tauto

lemma mem_sortByDesc {α β : Type} [LinearOrder β] (key : α → β) (x : α)
    (l : List α) : x ∈ sortByDesc key l ↔ x ∈ l := by
  induction l with
  | nil => simp [sortByDesc]
  | cons a rest ih =>
    unfold sortByDesc
    rw [mem_insertDesc]
    simp [ih]

/-- Errors the engine can surface: an unreadable file at `connect`,
`sqlite3.OperationalError` for a missing table, and the `NameError`
latent in the urls branch for a kind outside the detector's four
outputs. -/
inductive QErr
  | unreadableFile
  | operationalError
  | nameError
deriving DecidableEq

instance {ε α : Type} [DecidableEq ε] [DecidableEq α] : DecidableEq (Except ε α) :=
  fun x y =>
  match x, y with
  | .ok a, .ok b =>
    if h : a = b then isTrue (by rw [h]) else isFalse (by simp [h])
  | .error e, .error f =>
    if h : e = f then isTrue (by rw [h]) else isFalse (by simp [h])
  | .ok _, .error _ => isFalse (by simp)
  | .error _, .ok _ => isFalse (by simp)

/-- `query_rows` (src/main.py lines 54–119) on an opened database.  The
generator yields nothing for an unrecognized `table_type`, and for
`downloads` with a non-chromium kind; a missing table makes `execute`
raise.  For `table_type="urls"` and a kind other than the four detector
outputs the urls query runs but the first yielded row hits an unbound
`visited_utc` (`NameError`) — that combination is unreachable from the
app, which only passes `detect_kind` results. -/
def query_rows (db : Database) (kind table_type : String) (limit : Nat) :
    Except QErr (List Rec) :=
  if table_type = "urls" then
    if kind = "chromium" then
      match db.visits, db.urls with
      | some vs, some us =>
        .ok (((sortByDesc (fun p => p.1.visit_time)
            (sqlJoin vs us (fun v u => v.url == u.id))).take limit).map
          (fun p => .visit ⟨p.1.id, p.2.url, p.2.title.getD "",
            chrome_to_utc (.int p.1.visit_time)⟩))
      | _, _ => .error .operationalError
    else if kind = "firefox" then
      match db.moz_historyvisits, db.moz_places with
      | some hvs, some ps =>
        .ok (((sortByDesc (fun p => p.1.visit_date)
            (sqlJoin hvs ps (fun hv pl => hv.place_id == pl.id))).take limit).map
          (fun p => .visit ⟨p.1.id, p.2.url, p.2.title.getD "",
            firefox_to_utc (.int p.1.visit_date)⟩))
      | _, _ => .error .operationalError
    else if kind = "safari" then
      match db.history_visits, db.history_items with
      | some hvs, some his =>
        .ok (((sortByDesc (fun p => p.1.visit_time)
            (sqlJoin hvs his (fun hv hi => hv.history_item == hi.id))).take limit).map
          (fun p => .visit ⟨p.1.id, p.2.url, p.2.title.getD "",
            safari_to_utc (.float p.1.visit_time)⟩))
      | _, _ => .error .operationalError
    else
      match db.urls with
      | some us =>
        let rows := (sortByDesc (fun u => u.last_visit_time) us).take limit
        if kind = "unknown" then
          .ok (rows.map fun u => .visit ⟨u.id, u.url, u.title.getD "",
            chrome_to_utc (.int u.last_visit_time)⟩)
        else if rows.isEmpty then .ok [] else .error .nameError
      | none => .error .operationalError
  else if table_type = "downloads" then
    if kind = "chromium" then
      match db.downloads with
      | some ds =>
        .ok (((sortByDesc (fun d => d.start_time) ds).take limit).map fun d =>
          .download ⟨d.id, d.guid, d.current_path, d.target_path,
            sqlChromeTimeUtc d.start_time, d.received_bytes, d.total_bytes, d.hash,
            sqlChromeTimeUtc d.end_time, sqlChromeTimeUtc d.last_access_time,
            d.referrer, d.tab_url, d.tab_referrer_url, d.mime_type,
            d.original_mime_type⟩)
      | none => .error .operationalError
    else .ok []
  else .ok []

/-! ## The shell pieces the claims mention -/

/-- The external shell's clamp of the user-supplied row limit
(src/main.py line 293): `max(1, min(100000, int(limit)))`, falling back
to `5000` when `int()` fails. -/
def upload_limit (raw : PyVal) : Nat :=
  match pyToInt raw with
  | some i => (max 1 (min 100000 i)).toNat
  | none => 5000

/-- The fixed limit the CSV export route passes to the core
(src/main.py line 319: `query_rows(path, kind, table_type, limit=1000000)`). -/
def export_csv_limit : Nat := 1000000

/-- The record stream the CSV export route draws from a stored upload
(src/main.py lines 305–329). -/
def export_csv_rows (db : Database) (kind table_type : String) :
    Except QErr (List Rec) :=
  query_rows db kind table_type export_csv_limit

/-- The filesystem visible to `sqlite3.connect`: a path → database map. -/
structure FileSystem where
  files : List (String × Database)

/-- The connection URI both `detect_kind` and `query_rows` build:
`f"file:{db_path}?mode=ro"`. -/
def connect_uri (db_path : String) : String := "file:" ++ db_path ++ "?mode=ro"

/-- Modelled from the documented semantics of `sqlite3.connect` on a URI
filename: with `?mode=ro` the database is opened strictly read-only — the
filesystem is returned unchanged and a missing file is an error rather
than being created; without it (the default `rwc` mode) a missing file
would be created, changing the filesystem. -/
def sqlite_connect (uri : String) (fs : FileSystem) :
    Except QErr Database × FileSystem :=
  if "?mode=ro".data <:+ uri.data then
    let path := String.mk ((uri.data.take (uri.data.length - 8)).drop 5)
    match fs.files.lookup path with
    | some db => (.ok db, fs)
    | none => (.error .unreadableFile, fs)
  else
    match fs.files.lookup uri with
    | some db => (.ok db, fs)
    | none => (.ok { tableNames := [] },
               ⟨fs.files ++ [(uri, { tableNames := [] })]⟩)

/-- `detect_kind` viewed from its caller: open the path read-only, then
classify. -/
def detect_kind_path (db_path : String) (fs : FileSystem) :
    Except QErr String × FileSystem :=
  let c := sqlite_connect (connect_uri db_path) fs
  (c.1.map detect_kind, c.2)

/-- `query_rows` viewed from its caller: open the path read-only, then
query. -/
def query_rows_path (db_path : String) (kind table_type : String) (limit : Nat)
    (fs : FileSystem) : Except QErr (List Rec) × FileSystem :=
  let c := sqlite_connect (connect_uri db_path) fs
  match c.1 with
  | .ok db => (query_rows db kind table_type limit, c.2)
  | .error e => (.error e, c.2)

/-- The lower-cased table-name set `detect_kind` inspects. -/
def lowerNames (db : Database) : List String :=
  db.tableNames.map (fun s => String.mk (s.data.map Char.toLower))

lemma detect_kind_eq (db : Database) :
    detect_kind db =
      (if "urls" ∈ lowerNames db ∧ "visits" ∈ lowerNames db then "chromium"
      else if "moz_places" ∈ lowerNames db ∧ "moz_historyvisits" ∈ lowerNames db then
        "firefox"
      else if "history_items" ∈ lowerNames db ∧ "history_visits" ∈ lowerNames db then
        "safari"
      else if "downloads" ∈ lowerNames db then "chromium"
      else "unknown") := rfl

/-! ## Claim theorems -/

/-- C1: `detect` lower-cases the database's table names into a set and
classifies with first-match-wins order: `urls` and `visits` both present
gives Chromium; else `moz_places` and `moz_historyvisits` both present
gives Firefox; else `history_items` and `history_visits` both present
gives Safari; else `downloads` present gives Chromium; else Unknown — so
a table set of only `{downloads}` gives Chromium and `{foo, bar}` gives
Unknown. -/
theorem detect_kind_spec (db : Database) :
    (("urls" ∈ lowerNames db ∧ "visits" ∈ lowerNames db →
        detect_kind db = "chromium") ∧
      (¬("urls" ∈ lowerNames db ∧ "visits" ∈ lowerNames db) →
        "moz_places" ∈ lowerNames db ∧ "moz_historyvisits" ∈ lowerNames db →
        detect_kind db = "firefox") ∧
      (¬("urls" ∈ lowerNames db ∧ "visits" ∈ lowerNames db) →
        ¬("moz_places" ∈ lowerNames db ∧ "moz_historyvisits" ∈ lowerNames db) →
        "history_items" ∈ lowerNames db ∧ "history_visits" ∈ lowerNames db →
        detect_kind db = "safari") ∧
      (¬("urls" ∈ lowerNames db ∧ "visits" ∈ lowerNames db) →
        ¬("moz_places" ∈ lowerNames db ∧ "moz_historyvisits" ∈ lowerNames db) →
        ¬("history_items" ∈ lowerNames db ∧ "history_visits" ∈ lowerNames db) →
        "downloads" ∈ lowerNames db → detect_kind db = "chromium") ∧
      (¬("urls" ∈ lowerNames db ∧ "visits" ∈ lowerNames db) →
        ¬("moz_places" ∈ lowerNames db ∧ "moz_historyvisits" ∈ lowerNames db) →
        ¬("history_items" ∈ lowerNames db ∧ "history_visits" ∈ lowerNames db) →
        ¬("downloads" ∈ lowerNames db) → detect_kind db = "unknown")) ∧
    detect_kind { tableNames := ["downloads"] } = "chromium" ∧
    detect_kind { tableNames := ["urls", "visits", "downloads"] } = "chromium" ∧
    detect_kind { tableNames := ["moz_places", "moz_historyvisits"] } = "firefox" ∧
    detect_kind { tableNames := ["history_items", "history_visits"] } = "safari" ∧
    detect_kind { tableNames := ["foo", "bar"] } = "unknown" := by
  refine ⟨⟨?_, ?_, ?_, ?_, ?_⟩, by decide, by decide, by decide, by decide, by decide⟩
  · intro h1
    rw [detect_kind_eq, if_pos h1]
  · intro h1 h2
    rw [detect_kind_eq, if_neg h1, if_pos h2]
  · intro h1 h2 h3
    rw [detect_kind_eq, if_neg h1, if_neg h2, if_pos h3]
  · intro h1 h2 h3 h4
    rw [detect_kind_eq, if_neg h1, if_neg h2, if_neg h3, if_pos h4]
  · intro h1 h2 h3 h4
    rw [detect_kind_eq, if_neg h1, if_neg h2, if_neg h3, if_neg h4]

/-- C1 witness: a database whose `sqlite_master` lists `Urls` and `VISITS`
satisfies the first rule and is classified Chromium. -/
theorem detect_kind_spec_witness :
    ("urls" ∈ lowerNames { tableNames := ["Urls", "VISITS"] } ∧
      "visits" ∈ lowerNames { tableNames := ["Urls", "VISITS"] }) ∧
    detect_kind { tableNames := ["Urls", "VISITS"] } = "chromium" :=
  ⟨by decide, (detect_kind_spec { tableNames := ["Urls", "VISITS"] }).1.1 (by decide)⟩

/-- C7: requesting Download records with family Firefox or Safari yields
the empty sequence — no query is even issued, so no error can arise,
whatever the database contents and limit. -/
theorem downloads_non_chromium_empty (db : Database) (limit : Nat) (kind : String)
    (h : kind = "firefox" ∨ kind = "safari") :
    query_rows db kind "downloads" limit = .ok [] := by
  rcases h with h | h <;> subst h <;> rfl

/-- C7 witness: Download records for a Firefox classification on an empty
database give the empty sequence. -/
theorem downloads_non_chromium_empty_witness :
    ("firefox" = "firefox" ∨ "firefox" = "safari") ∧
    query_rows { tableNames := [] } "firefox" "downloads" 5 = .ok [] :=
  ⟨Or.inl rfl, downloads_non_chromium_empty { tableNames := [] } 5 "firefox" (Or.inl rfl)⟩

/-- C9: both `detect_kind` and `query_rows` connect with
`f"file:{path}?mode=ro"`; under SQLite's read-only URI semantics the
filesystem is unchanged by every call — files are never created,
migrated, or written. -/
lemma sqlite_connect_ro_frame (uri : String) (fs : FileSystem)
    (h : "?mode=ro".data <:+ uri.data) : (sqlite_connect uri fs).2 = fs := by
  unfold sqlite_connect
  rw [if_pos h]
  simp only []
  split <;> rfl

lemma connect_uri_ro (db_path : String) :
    "?mode=ro".data <:+ (connect_uri db_path).data := by
  unfold connect_uri
  rw [String.data_append, String.data_append]
  exact List.suffix_append _ _

theorem read_only_frame (db_path : String) (fs : FileSystem) (kind table_type : String)
    (limit : Nat) :
    (detect_kind_path db_path fs).2 = fs ∧
    (query_rows_path db_path kind table_type limit fs).2 = fs := by
  have hc := sqlite_connect_ro_frame (connect_uri db_path) fs (connect_uri_ro db_path)
  refine ⟨hc, ?_⟩
  unfold query_rows_path
  simp only []
  split <;> exact hc

/-- C10: any record-type selector other than `"urls"` and `"downloads"`
falls through both branches of `query_rows`: the generator yields nothing
and no error is raised, for every family, database, and limit. -/
theorem unrecognized_selector_empty (db : Database) (kind : String) (limit : Nat)
    (table_type : String) (h1 : table_type ≠ "urls") (h2 : table_type ≠ "downloads") :
    query_rows db kind table_type limit = .ok [] := by
  unfold query_rows
  rw [if_neg h1, if_neg h2]

/-- C10 witness: the selector `"history"` yields the empty sequence. -/
theorem unrecognized_selector_empty_witness :
    ("history" : String) ≠ "urls" ∧ ("history" : String) ≠ "downloads" ∧
    query_rows { tableNames := [] } "chromium" "history" 7 = .ok [] :=
  ⟨by decide, by decide,
    unrecognized_selector_empty { tableNames := [] } "chromium" 7 "history"
      (by decide) (by decide)⟩

/-- C2: for every valid Chromium microsecond value `v` (the values within
Python's `datetime` range, `v ≤ 265046774399999999`), `chrome_to_utc`
returns an ISO-8601 UTC string that parses back to exactly the instant
1601-01-01T00:00:00Z plus `v` microseconds, exact to the microsecond. -/
theorem chrome_to_utc_roundtrip (v : Nat) (h : v ≤ 265046774399999999) :
    parseIso (chrome_to_utc (.int (v : Int))) = some (chromeEpochUs + v) := by
  have hc : chromeEpochUs = 50491123200000000 := by decide
  have hm : pyMaxMicros = 315537897599999999 := by decide
  simp only [chrome_to_utc, pyToInt, epochShiftIso]
  rw [if_pos (by omega)]
  have h3 : ((v : Int) + (chromeEpochUs : Int)).toNat = chromeEpochUs + v := by omega
  rw [h3]
  exact parseIso_isoformat _ (by omega)

/-- C2 witness: the fixture value 13300000000000000 is valid and parses
back to the chromium epoch plus itself. -/
theorem chrome_to_utc_roundtrip_witness :
    (13300000000000000 : Nat) ≤ 265046774399999999 ∧
    parseIso (chrome_to_utc (.int ((13300000000000000 : Nat) : Int)))
      = some (chromeEpochUs + 13300000000000000) :=
  ⟨by norm_num, chrome_to_utc_roundtrip 13300000000000000 (by norm_num)⟩

/-- C3: `safari_to_utc` infers the unit from the raw value's magnitude —
`> 1e14` means nanoseconds (divide by 1e9), else `> 1e11` means
microseconds (divide by 1e6), else `> 1e10` means milliseconds (divide by
1e3), otherwise the value is already seconds — and the resulting seconds
are added to the 2001-01-01T00:00:00Z epoch (at `timedelta`'s microsecond
resolution) to form the UTC instant. -/
theorem safari_unit_inference (v : ℚ) :
    (v > 1e14 → safariSeconds v = v / 1e9) ∧
    (¬(v > 1e14) → v > 1e11 → safariSeconds v = v / 1e6) ∧
    (¬(v > 1e14) → ¬(v > 1e11) → v > 1e10 → safariSeconds v = v / 1e3) ∧
    (¬(v > 1e14) → ¬(v > 1e11) → ¬(v > 1e10) → safariSeconds v = v) ∧
    (∀ x : PyVal, pyToFloat x = some v →
      safari_to_utc x
        = epochShiftIso cocoaEpochUs (roundHalfEven (safariSeconds v * 1000000))) := by
  refine ⟨?_, ?_, ?_, ?_, ?_⟩
  · intro h1
    simp only [safariSeconds]
    rw [if_pos h1]
  · intro h1 h2
    simp only [safariSeconds]
    rw [if_neg h1, if_pos h2]
  · intro h1 h2 h3
    simp only [safariSeconds]
    rw [if_neg h1, if_neg h2, if_pos h3]
  · intro h1 h2 h3
    simp only [safariSeconds]
    rw [if_neg h1, if_neg h2, if_neg h3]
  · intro x hx
    unfold safari_to_utc
    rw [hx]

/-- C3 witness: 2e14 falls in the nanosecond band. -/
theorem safari_unit_inference_witness :
    ((200000000000000 : ℚ) > 1e14) ∧
    safariSeconds 200000000000000 = 200000000000000 / 1e9 :=
  ⟨by norm_num, (safari_unit_inference 200000000000000).1 (by norm_num)⟩

lemma epochShiftIso_out_of_range (e : Nat) (i : Int)
    (h : i + (e : Int) < 0 ∨ (pyMaxMicros : Int) < i + (e : Int)) :
    epochShiftIso e i = "" := by
  unfold epochShiftIso
  rcases h with h | h <;> rw [if_neg (by omega)]

/-- C4: each converter is total — it returns a string on every input and
never raises — and returns the empty-string marker on every malformed
input: non-numeric values (where `int()` / `float()` raises), and any
value whose instant leaves the representable date range on either side
(negative overflow included). -/
theorem converters_total_malformed (x : PyVal) :
    (pyToInt x = none → chrome_to_utc x = "" ∧ firefox_to_utc x = "") ∧
    (pyToFloat x = none → safari_to_utc x = "") ∧
    (∀ i : Int, pyToInt x = some i →
      (i + (chromeEpochUs : Int) < 0 ∨ (pyMaxMicros : Int) < i + (chromeEpochUs : Int) →
        chrome_to_utc x = "") ∧
      (i + (unixEpochUs : Int) < 0 ∨ (pyMaxMicros : Int) < i + (unixEpochUs : Int) →
        firefox_to_utc x = "")) ∧
    (∀ q : ℚ, pyToFloat x = some q →
      roundHalfEven (safariSeconds q * 1000000) + (cocoaEpochUs : Int) < 0 ∨
        (pyMaxMicros : Int) < roundHalfEven (safariSeconds q * 1000000) + (cocoaEpochUs : Int) →
      safari_to_utc x = "") := by
  refine ⟨?_, ?_, ?_, ?_⟩
  · intro h
    unfold chrome_to_utc firefox_to_utc
    rw [h]
    exact ⟨rfl, rfl⟩
  · intro h
    unfold safari_to_utc
    rw [h]
  · intro i hi
    unfold chrome_to_utc firefox_to_utc
    rw [hi]
    exact ⟨fun hor => epochShiftIso_out_of_range _ _ hor,
           fun hor => epochShiftIso_out_of_range _ _ hor⟩
  · intro q hq hor
    unfold safari_to_utc
    rw [hq]
    exact epochShiftIso_out_of_range _ _ hor

/-- C4 witness: a non-numeric value makes all three converters return the
empty-string marker. -/
theorem converters_total_malformed_witness :
    pyToInt PyVal.nonNumeric = none ∧ pyToFloat PyVal.nonNumeric = none ∧
    chrome_to_utc PyVal.nonNumeric = "" ∧ firefox_to_utc PyVal.nonNumeric = "" ∧
    safari_to_utc PyVal.nonNumeric = "" :=
  ⟨rfl, rfl, ((converters_total_malformed .nonNumeric).1 rfl).1,
    ((converters_total_malformed .nonNumeric).1 rfl).2,
    (converters_total_malformed .nonNumeric).2.1 rfl⟩

/-- C5 counterexample: at the raw value 13300000000000000 the in-query
conversion yields `2022-06-18 04:26:40` while `chrome_to_utc` yields
`2022-06-18T04:26:40+00:00` — the same instant, but not identical
strings, refuting the claim as stated. -/
theorem sql_vs_app_counterexample :
    sqlChromeTimeUtc 13300000000000000 = some "2022-06-18 04:26:40" ∧
    chrome_to_utc (.int 13300000000000000) = "2022-06-18T04:26:40+00:00" ∧
    sqlChromeTimeUtc 13300000000000000
      ≠ some (chrome_to_utc (.int 13300000000000000)) := by
  refine ⟨by decide, by decide, ?_⟩
  intro hcontra
  rw [(by decide : sqlChromeTimeUtc 13300000000000000 = some "2022-06-18 04:26:40"),
    (by decide : chrome_to_utc (.int 13300000000000000)
      = "2022-06-18T04:26:40+00:00")] at hcontra
  exact absurd (Option.some.inj hcontra) (by decide)

/-- C5 (amended): for every valid Chromium microsecond value the in-query
conversion (truncating division by 1e6, minus the 11,644,473,600-second
Unix offset) renders exactly the whole-second truncation of the very
instant `chrome_to_utc` renders — the arithmetic agrees to the second,
only the string formats differ. -/
theorem sql_vs_app_conversion (v : Nat) (h : v ≤ 265046774399999999) :
    sqlChromeTimeUtc (v : Int)
      = some (String.mk (sqliteFormatChars ((chromeEpochUs + v) / 1000000))) ∧
    chrome_to_utc (.int (v : Int)) = isoformat (chromeEpochUs + v) := by
  have hc : chromeEpochUs = 50491123200000000 := by decide
  have hm : pyMaxMicros = 315537897599999999 := by decide
  have hu : unixEpochSec = 62135596800 := by decide
  constructor
  · unfold sqlChromeTimeUtc sqlite_datetime
    have htdiv : (v : Int).tdiv 1000000 = ((v / 1000000 : Nat) : Int) :=
      (Int.ofNat_tdiv v 1000000).symm
    rw [htdiv, if_pos (by omega)]
    have ht : (((v / 1000000 : Nat) : Int) - 11644473600 + (unixEpochSec : Int)).toNat
        = (chromeEpochUs + v) / 1000000 := by omega
    rw [ht]
  · simp only [chrome_to_utc, pyToInt, epochShiftIso]
    rw [if_pos (by omega)]
    congr 1
    omega

/-- C5 witness at the fixture value. -/
theorem sql_vs_app_conversion_witness :
    (13300000000000000 : Nat) ≤ 265046774399999999 ∧
    sqlChromeTimeUtc ((13300000000000000 : Nat) : Int)
      = some (String.mk (sqliteFormatChars ((chromeEpochUs + 13300000000000000) / 1000000))) :=
  ⟨by norm_num, (sql_vs_app_conversion 13300000000000000 (by norm_num)).1⟩

/-- C6 counterexample: the CSV export route reaches the core with the
fixed limit 1,000,000, which is outside `[1, 100000]` — the clamp only
guards the interactive upload path. -/
theorem limit_counterexample :
    export_csv_rows { tableNames := [] } "chromium" "urls"
      = query_rows { tableNames := [] } "chromium" "urls" 1000000 ∧
    export_csv_limit = 1000000 ∧ ¬(export_csv_limit ≤ 100000) :=
  ⟨rfl, rfl, by decide⟩

/-- C6 (amended): an extraction never yields more records than the
supplied limit; the interactive upload path clamps the user-supplied
limit into `[1, 100000]` before calling the core, but the CSV export path
calls the core with the fixed limit 1,000,000. -/
theorem extraction_bounded (db : Database) (kind table_type : String) (limit : Nat)
    (l : List Rec) (h : query_rows db kind table_type limit = .ok l) :
    l.length ≤ limit ∧
    (∀ raw : PyVal, 1 ≤ upload_limit raw ∧ upload_limit raw ≤ 100000) ∧
    export_csv_limit = 1000000 := by
  refine ⟨?_, ?_, rfl⟩
  · unfold query_rows at h
    simp only [] at h
    repeat' split at h
    all_goals try exact Except.noConfusion h
    all_goals simp only [Except.ok.injEq] at h
    all_goals subst h
    all_goals simp only [List.length_map, List.length_take, length_sortByDesc,
      List.length_nil]
    all_goals omega
  · intro raw
    unfold upload_limit
    cases raw <;> simp only [pyToInt] <;> omega

/-- C6 witness: a two-row urls table with limit 1 yields one record. -/
theorem extraction_bounded_witness :
    query_rows
        { tableNames := [],
          urls := some [⟨1, "http://a", none, 5⟩, ⟨2, "http://b", none, 3⟩] }
        "unknown" "urls" 1
      = .ok [Rec.visit ⟨1, "http://a", "", "1601-01-01T00:00:00.000005+00:00"⟩] ∧
    [Rec.visit ⟨1, "http://a", "", "1601-01-01T00:00:00.000005+00:00"⟩].length ≤ 1 :=
  ⟨by decide,
    (extraction_bounded
      { tableNames := [],
        urls := some [⟨1, "http://a", none, 5⟩, ⟨2, "http://b", none, 3⟩] }
      "unknown" "urls" 1 _ (by decide)).1⟩

lemma epochShiftIso_shape (e : Nat) (i : Int) :
    epochShiftIso e i = "" ∨ ∃ t ≤ pyMaxMicros, epochShiftIso e i = isoformat t := by
  unfold epochShiftIso
  split_ifs with hc
  · right
    exact ⟨(i + (e : Int)).toNat, by omega, rfl⟩
  · left
    rfl

lemma chrome_to_utc_shape (x : PyVal) :
    chrome_to_utc x = "" ∨ ∃ t ≤ pyMaxMicros, chrome_to_utc x = isoformat t := by
  cases x
  · exact epochShiftIso_shape _ _
  · exact epochShiftIso_shape _ _
  · left; rfl

lemma firefox_to_utc_shape (x : PyVal) :
    firefox_to_utc x = "" ∨ ∃ t ≤ pyMaxMicros, firefox_to_utc x = isoformat t := by
  cases x
  · exact epochShiftIso_shape _ _
  · exact epochShiftIso_shape _ _
  · left; rfl

lemma safari_to_utc_shape (x : PyVal) :
    safari_to_utc x = "" ∨ ∃ t ≤ pyMaxMicros, safari_to_utc x = isoformat t := by
  cases x
  · exact epochShiftIso_shape _ _
  · exact epochShiftIso_shape _ _
  · left; rfl

lemma sqlChromeTimeUtc_shape (raw : Int) :
    sqlChromeTimeUtc raw = none ∨
      ∃ t, sqlChromeTimeUtc raw = some (String.mk (sqliteFormatChars t)) := by
  unfold sqlChromeTimeUtc sqlite_datetime
  split_ifs
  · right
    exact ⟨_, rfl⟩
  · left
    rfl

/-- The per-record timestamp invariant that actually holds: a visit's
timestamp is the empty marker or a rendered ISO-8601 UTC instant; a
download's timestamp fields are a rendered SQL `YYYY-MM-DD HH:MM:SS`
string or SQL NULL.  (Identifiers are non-null by the schema's
`INTEGER PRIMARY KEY` typing, reflected in the record types.) -/
def RecTimestampsOk : Rec → Prop
  | .visit v => v.utc = "" ∨ ∃ t ≤ pyMaxMicros, v.utc = isoformat t
  | .download d =>
    (d.start_time_utc = none ∨
      ∃ t, d.start_time_utc = some (String.mk (sqliteFormatChars t))) ∧
    (d.end_time_utc = none ∨
      ∃ t, d.end_time_utc = some (String.mk (sqliteFormatChars t))) ∧
    (d.last_access_time_utc = none ∨
      ∃ t, d.last_access_time_utc = some (String.mk (sqliteFormatChars t)))

/-- C8 counterexample: a downloads row whose `start_time` is so large that
SQLite's `datetime` is out of range is emitted with a NULL
`start_time_utc` — neither a valid ISO-8601 UTC string nor the
empty-string marker, refuting the claim as stated. -/
theorem record_fields_counterexample :
    query_rows
        { tableNames := ["downloads"],
          downloads := some [⟨1, "g", "c", "t", 300000000000000000, 9, 9, "h",
            13300000000000000, 0, "r", "tu", "tr", "m", "o"⟩] }
        "chromium" "downloads" 10
      = .ok [Rec.download ⟨1, "g", "c", "t", none, 9, 9, "h",
          some "2022-06-18 04:26:40", some "1601-01-01 00:00:00",
          "r", "tu", "tr", "m", "o"⟩] ∧
    (⟨1, "g", "c", "t", none, 9, 9, "h",
      some "2022-06-18 04:26:40", some "1601-01-01 00:00:00",
      "r", "tu", "tr", "m", "o"⟩ : DownloadRec).start_time_utc = none :=
  ⟨by decide, rfl⟩

/-- C8 (amended): every record emitted by an extraction has a non-null
identifier (by the schema's primary-key typing), and every timestamp
field is either the converter's output — a valid ISO-8601 UTC string or
the empty-string marker — for visit records, or the SQL `datetime`
output — a `YYYY-MM-DD HH:MM:SS` string or SQL NULL — for download
records; never a raw unconverted number and never an exception. -/
theorem record_fields_spec (db : Database) (kind table_type : String) (limit : Nat)
    (l : List Rec) (h : query_rows db kind table_type limit = .ok l) :
    ∀ r ∈ l, RecTimestampsOk r := by
  intro r hr
  unfold query_rows at h
  simp only [] at h
  repeat' split at h
  all_goals try exact Except.noConfusion h
  all_goals simp only [Except.ok.injEq] at h
  all_goals subst h
  all_goals try exact absurd hr (List.not_mem_nil r)
  all_goals obtain ⟨x, hx, rfl⟩ := List.mem_map.mp hr
  all_goals simp only [RecTimestampsOk]
  · exact chrome_to_utc_shape _
  · exact firefox_to_utc_shape _
  · exact safari_to_utc_shape _
  · exact chrome_to_utc_shape _
  · exact ⟨sqlChromeTimeUtc_shape _, sqlChromeTimeUtc_shape _, sqlChromeTimeUtc_shape _⟩

/-- C8 witness: the invariant holds of the record extracted from a
one-row downloads fixture. -/
theorem record_fields_spec_witness :
    RecTimestampsOk (Rec.download ⟨1, "g", "c", "t", none, 9, 9, "h",
      some "2022-06-18 04:26:40", some "1601-01-01 00:00:00",
      "r", "tu", "tr", "m", "o"⟩) :=
  record_fields_spec
    { tableNames := ["downloads"],
      downloads := some [⟨1, "g", "c", "t", 300000000000000000, 9, 9, "h",
        13300000000000000, 0, "r", "tu", "tr", "m", "o"⟩] }
    "chromium" "downloads" 10
    [Rec.download ⟨1, "g", "c", "t", none, 9, 9, "h",
      some "2022-06-18 04:26:40", some "1601-01-01 00:00:00",
      "r", "tu", "tr", "m", "o"⟩]
    (by decide)
    (Rec.download ⟨1, "g", "c", "t", none, 9, 9, "h",
      some "2022-06-18 04:26:40", some "1601-01-01 00:00:00",
      "r", "tu", "tr", "m", "o"⟩)
    (by decide)

end BHP
